import Mathlib

/-!
# Verification of the Ansys-Fluent AoA sweep UDF (`aoa_udf.c`)

A shallow embedding of the reduction pipeline in `src/aoa_udf.c`:

* `read_aoa_from_file` models the function of the same name (lines 34-50):
  the file system outcome is an `Option (Option ℝ)` — `none` when
  `fopen("aoa.txt", "r")` fails, `some none` when `fscanf` cannot parse a
  first numeric token, `some (some v)` when the first token parses to `v`.
  The C function mutates the static `aoa_deg`; here the previous cached
  value is passed in and the new cached value is returned.  The second
  component records whether any console message was emitted (the warning
  in the fopen-failure branch is commented out in the source, so every
  branch emits nothing).

* `reduce` models steps 5-7 of `compute_forces_and_write`
  (lines 126-147): the wind-axis decomposition, the dynamic pressure and
  the coefficient computation with the `qinf * AREF != 0.0` guard.  The
  compile-time macros `UINF`, `RHO`, `AREF`, `LREF` form the
  configuration record `AeroConstants`; `defaultConstants` holds the
  values in the source.  C `double` arithmetic is idealised as real
  arithmetic, and the `PI` literal as `Real.pi`.

* `compute_forces_and_write` models the `DEFINE_ON_DEMAND` body
  (lines 85-176) as a function from an invocation environment `Env` and
  the process state `UdfState` (the statics `aoa_deg` and
  `header_written`) to an `InvocationResult`: the new statics, the lines
  appended to `aoa_results.txt`, whether the zone-not-found error message
  was printed, the final console `Message` row, and the status returned
  to the journal driver (the callback is `void`, so always `0`).
  `Env.ledgerContent` is the pre-existing content of `aoa_results.txt`;
  append mode means the file afterwards is `ledgerContent ++ written`
  (`ledgerAfter`).

* `runTrace` runs a list of invocations in one process, starting from
  the statics' initialisers (`initUdfState`), concatenating everything
  appended to the ledger.
-/

namespace AoaUdf

/-- A 3-component real vector: the `force[ND_ND]` / `moment[ND_ND]` arrays. -/
structure Vec3 where
  x : ℝ
  y : ℝ
  z : ℝ

/-- The configuration macros of `aoa_udf.c` lines 21-25 (fixed at compile
time; modelled as a record because they are edit-and-recompile configuration). -/
structure AeroConstants where
  uinf : ℝ
  rho : ℝ
  aref : ℝ
  lref : ℝ

/-- The macro values in the source: `UINF 16.0`, `RHO 1.225`, `AREF 0.4`,
`LREF 0.435`. -/
def defaultConstants : AeroConstants :=
  { uinf := 16.0, rho := 1.225, aref := 0.4, lref := 0.435 }

/-- One data row of `aoa_results.txt`: the 14 values printed by the
`fprintf` at lines 162-169, in field order. -/
structure ResultRow where
  aoa : ℝ
  fx : ℝ
  fy : ℝ
  fz : ℝ
  fd : ℝ
  fl : ℝ
  cd : ℝ
  cl : ℝ
  mx : ℝ
  my : ℝ
  mz : ℝ
  cmx : ℝ
  cmy : ℝ
  cmz : ℝ

/-- A line of the results ledger: the header line (lines 156-158) or a
data row (lines 162-169). -/
inductive Line where
  | header : Line
  | row : ResultRow → Line

/-- The static variables of `aoa_udf.c`: `aoa_deg` (line 31) and
`header_written` (line 153). -/
structure UdfState where
  aoa_deg : ℝ
  header_written : Bool

/-- The statics' initial values: `aoa_deg = 0.0`, `header_written = 0`. -/
def initUdfState : UdfState := { aoa_deg := 0, header_written := false }

/-- `read_aoa_from_file` (lines 34-50).  `file` is the outcome of reading
`aoa.txt`: `none` = `fopen` failed, `some none` = `fscanf` returned ≠ 1,
`some (some v)` = first token parsed as `v`.  Returns the new cached
`aoa_deg` and whether a console message was emitted (never: the warning
is commented out). -/
def read_aoa_from_file (file : Option (Option ℝ)) (aoa_prev : ℝ) : ℝ × Bool :=
  match file with
  | some (some v) => (v, false)
  | some none => (aoa_prev, false)
  | none => (aoa_prev, false)

/-- Steps 5-7 of `compute_forces_and_write` (lines 126-147): wind-axis
decomposition, dynamic pressure, coefficients with the
`qinf * AREF != 0.0` guard, assembled into the row that is printed. -/
noncomputable def reduce (c : AeroConstants) (aoa_deg : ℝ) (force moment : Vec3) :
    ResultRow :=
  let a_rad := aoa_deg * Real.pi / 180
  let fd := force.x * Real.cos a_rad + force.y * Real.sin a_rad
  let fl := -force.x * Real.sin a_rad + force.y * Real.cos a_rad
  let qinf := 0.5 * c.rho * c.uinf * c.uinf
  if qinf * c.aref ≠ 0 then
    { aoa := aoa_deg, fx := force.x, fy := force.y, fz := force.z,
      fd := fd, fl := fl,
      cd := fd / (qinf * c.aref), cl := fl / (qinf * c.aref),
      mx := moment.x, my := moment.y, mz := moment.z,
      cmx := moment.x / (qinf * c.aref * c.lref),
      cmy := moment.y / (qinf * c.aref * c.lref),
      cmz := moment.z / (qinf * c.aref * c.lref) }
  else
    { aoa := aoa_deg, fx := force.x, fy := force.y, fz := force.z,
      fd := fd, fl := fl,
      cd := 0, cl := 0,
      mx := moment.x, my := moment.y, mz := moment.z,
      cmx := 0, cmy := 0, cmz := 0 }

/-- The external outcomes of one `compute_forces_and_write` invocation:
the `aoa.txt` read outcome, whether `Lookup_Thread` found the zone,
the force/moment vectors returned by `Compute_Force_And_Moment`, whether
`fopen("aoa_results.txt", "a")` succeeded, and the pre-existing content
of the ledger file. -/
structure Env where
  aoaFile : Option (Option ℝ)
  zoneFound : Bool
  force : Vec3
  moment : Vec3
  ledgerOpen : Bool
  ledgerContent : List Line

/-- Everything one invocation produces: the new statics, the lines
appended to `aoa_results.txt`, whether the zone-not-found error message
was printed (line 106), the row echoed by the final console `Message`
(lines 174-175), and the status returned to the journal driver (the
`DEFINE_ON_DEMAND` callback is `void`, so always `0`). -/
structure InvocationResult where
  state : UdfState
  written : List Line
  errorMsg : Bool
  consoleRow : Option ResultRow
  signal : ℕ

/-- The cached AoA after the read at line 99. -/
def aoaAfterRead (env : Env) (s : UdfState) : ℝ :=
  (read_aoa_from_file env.aoaFile s.aoa_deg).1

/-- The `DEFINE_ON_DEMAND(compute_forces_and_write)` body (lines 85-176):
read AoA; if the zone is not found, print the error and return (no row);
otherwise compute the row; if the ledger opens, append the header (first
time in this process, guarded by the static `header_written`) and the
row; either way print the console message with the computed values. -/
noncomputable def compute_forces_and_write (c : AeroConstants) (env : Env)
    (s : UdfState) : InvocationResult :=
  if env.zoneFound = false then
    { state := { aoa_deg := aoaAfterRead env s, header_written := s.header_written },
      written := [], errorMsg := true, consoleRow := none, signal := 0 }
  else if env.ledgerOpen = false then
    { state := { aoa_deg := aoaAfterRead env s, header_written := s.header_written },
      written := [], errorMsg := false,
      consoleRow := some (reduce c (aoaAfterRead env s) env.force env.moment),
      signal := 0 }
  else
    { state := { aoa_deg := aoaAfterRead env s, header_written := true },
      written := (if s.header_written = true then [] else [Line.header])
        ++ [Line.row (reduce c (aoaAfterRead env s) env.force env.moment)],
      errorMsg := false,
      consoleRow := some (reduce c (aoaAfterRead env s) env.force env.moment),
      signal := 0 }

/-- The ledger file content after one invocation: append mode means the
new lines go after the pre-existing content. -/
noncomputable def ledgerAfter (c : AeroConstants) (env : Env) (s : UdfState) :
    List Line :=
  env.ledgerContent ++ (compute_forces_and_write c env s).written

/-- Whether a ledger line is the header line. -/
def isHeader : Line → Bool
  | Line.header => true
  | Line.row _ => false

/-- Number of header lines in a list of ledger lines. -/
def countHeader (ls : List Line) : ℕ :=
  ls.countP isHeader

/-- Run a sequence of invocations in one process: returns the final
statics and everything appended to the ledger, in order. -/
noncomputable def runTrace (c : AeroConstants) :
    List Env → UdfState → UdfState × List Line
  | [], s => (s, [])
  | e :: rest, s =>
    ((runTrace c rest (compute_forces_and_write c e s).state).1,
     (compute_forces_and_write c e s).written
       ++ (runTrace c rest (compute_forces_and_write c e s).state).2)

/-! ### Concrete inputs used by witnesses and counterexamples -/

/-- A successful invocation environment: AoA token `5`, zone found,
ledger opens, empty pre-existing file. -/
def envGood : Env :=
  { aoaFile := some (some 5), zoneFound := true, force := ⟨2, 3, 4⟩,
    moment := ⟨1, 2, 3⟩, ledgerOpen := true, ledgerContent := [] }

/-- Like `envGood` but `Lookup_Thread` returns `NULL`. -/
def envNoZone : Env := { envGood with zoneFound := false }

/-- Like `envGood` but `fopen("aoa_results.txt", "a")` fails. -/
def envNoOpen : Env := { envGood with ledgerOpen := false }

/-- An all-zero data row standing for a row left by an earlier process. -/
def rowPrev : ResultRow := ⟨0, 0, 0, 0, 0, 0, 0, 0, 0, 0, 0, 0, 0, 0⟩

/-- A process-restart environment: the ledger file already holds a header
and one data row from a previous process. -/
def envRestart : Env :=
  { envGood with ledgerContent := [Line.header, Line.row rowPrev] }

/-- Constants with zero reference area (the degenerate-denominator case). -/
def constAref0 : AeroConstants :=
  { uinf := 16.0, rho := 1.225, aref := 0, lref := 0.435 }

/-! ### Branch equations for `compute_forces_and_write` -/

/-- Zone not found (lines 104-108): error message, early return, nothing
written, statics unchanged except the freshly read AoA. -/
lemma compute_zone_miss (c : AeroConstants) (env : Env) (s : UdfState)
    (h : env.zoneFound = false) :
    compute_forces_and_write c env s =
      { state := { aoa_deg := aoaAfterRead env s, header_written := s.header_written },
        written := [], errorMsg := true, consoleRow := none, signal := 0 } := by
  simp [compute_forces_and_write, h]

/-- Ledger open failure (line 151 guard false): nothing written, statics'
flag unchanged, but the console message still prints the computed row. -/
lemma compute_open_fail (c : AeroConstants) (env : Env) (s : UdfState)
    (hz : env.zoneFound = true) (ho : env.ledgerOpen = false) :
    compute_forces_and_write c env s =
      { state := { aoa_deg := aoaAfterRead env s, header_written := s.header_written },
        written := [], errorMsg := false,
        consoleRow := some (reduce c (aoaAfterRead env s) env.force env.moment),
        signal := 0 } := by
  simp [compute_forces_and_write, hz, ho]

/-- Successful append with the header flag still unset: header then row. -/
lemma compute_good_first (c : AeroConstants) (env : Env) (s : UdfState)
    (hz : env.zoneFound = true) (ho : env.ledgerOpen = true)
    (hf : s.header_written = false) :
    compute_forces_and_write c env s =
      { state := { aoa_deg := aoaAfterRead env s, header_written := true },
        written := [Line.header,
          Line.row (reduce c (aoaAfterRead env s) env.force env.moment)],
        errorMsg := false,
        consoleRow := some (reduce c (aoaAfterRead env s) env.force env.moment),
        signal := 0 } := by
  simp [compute_forces_and_write, hz, ho, hf]

/-- Successful append with the header flag already set: row only. -/
lemma compute_good_later (c : AeroConstants) (env : Env) (s : UdfState)
    (hz : env.zoneFound = true) (ho : env.ledgerOpen = true)
    (hf : s.header_written = true) :
    compute_forces_and_write c env s =
      { state := { aoa_deg := aoaAfterRead env s, header_written := true },
        written :=
          [Line.row (reduce c (aoaAfterRead env s) env.force env.moment)],
        errorMsg := false,
        consoleRow := some (reduce c (aoaAfterRead env s) env.force env.moment),
        signal := 0 } := by
  simp [compute_forces_and_write, hz, ho, hf]

/-- Whenever the zone is found, the console message prints exactly the
reduced row (the pipeline output), whether or not the ledger opened. -/
lemma compute_consoleRow (c : AeroConstants) (env : Env) (s : UdfState)
    (hz : env.zoneFound = true) :
    (compute_forces_and_write c env s).consoleRow =
      some (reduce c (aoaAfterRead env s) env.force env.moment) := by
  by_cases ho : env.ledgerOpen = true
  · by_cases hf : s.header_written = true
    · rw [compute_good_later c env s hz ho hf]
    · rw [compute_good_first c env s hz ho (by simpa using hf)]
  · rw [compute_open_fail c env s hz (by simpa using ho)]

/-- The invocation never inspects the pre-existing ledger content. -/
lemma compute_content_blind (c : AeroConstants) (env : Env) (s : UdfState)
    (content : List Line) :
    compute_forces_and_write c { env with ledgerContent := content } s =
      compute_forces_and_write c env s := rfl

/-! ### Field equations for `reduce` -/

/-- Drag component of the reduced row (line 127). -/
lemma reduce_fd (c : AeroConstants) (aoa : ℝ) (F M : Vec3) :
    (reduce c aoa F M).fd =
      F.x * Real.cos (aoa * Real.pi / 180) +
        F.y * Real.sin (aoa * Real.pi / 180) := by
  simp only [reduce]
  split <;> rfl

/-- Lift component of the reduced row (line 128). -/
lemma reduce_fl (c : AeroConstants) (aoa : ℝ) (F M : Vec3) :
    (reduce c aoa F M).fl =
      -F.x * Real.sin (aoa * Real.pi / 180) +
        F.y * Real.cos (aoa * Real.pi / 180) := by
  simp only [reduce]
  split <;> rfl

/-! ### Trace lemmas for the header flag -/

/-- Once the header flag is set it stays set. -/
lemma compute_flag_mono (c : AeroConstants) (env : Env) (s : UdfState)
    (h : s.header_written = true) :
    (compute_forces_and_write c env s).state.header_written = true := by
  simp only [compute_forces_and_write]
  split
  · exact h
  · split <;> simp [h]

/-- With the header flag set, an invocation appends no header line. -/
lemma compute_no_header_of_flag (c : AeroConstants) (env : Env) (s : UdfState)
    (h : s.header_written = true) :
    countHeader (compute_forces_and_write c env s).written = 0 := by
  simp only [compute_forces_and_write]
  split
  · simp [countHeader]
  · split
    · simp [countHeader]
    · simp [countHeader, h, isHeader]

/-- With the header flag set, a whole trace appends no header line. -/
lemma runTrace_no_header_of_flag (c : AeroConstants) (envs : List Env)
    (s : UdfState) (h : s.header_written = true) :
    countHeader (runTrace c envs s).2 = 0 := by
  induction envs generalizing s with
  | nil => simp [runTrace, countHeader]
  | cons e rest ih =>
    simp only [runTrace, countHeader, List.countP_append] at *
    rw [ih _ (compute_flag_mono c e s h)]
    have := compute_no_header_of_flag c e s h
    simp only [countHeader] at this
    simp [this]

/-- An invocation whose ledger open failed (or that aborted on the zone
lookup) leaves the header flag unchanged and appends nothing. -/
lemma compute_skip_of_no_open (c : AeroConstants) (env : Env) (s : UdfState)
    (ho : env.ledgerOpen = false) :
    (compute_forces_and_write c env s).state.header_written = s.header_written
      ∧ (compute_forces_and_write c env s).written = [] := by
  by_cases hz : env.zoneFound = true
  · rw [compute_open_fail c env s hz ho]
    exact ⟨rfl, rfl⟩
  · rw [compute_zone_miss c env s (by simpa using hz)]
    exact ⟨rfl, rfl⟩

/-- A trace of invocations none of which opened the ledger leaves the
header flag unchanged. -/
lemma runTrace_flag_of_no_open (c : AeroConstants) (envs : List Env)
    (s : UdfState) (h : ∀ e ∈ envs, e.ledgerOpen = false) :
    (runTrace c envs s).1.header_written = s.header_written := by
  induction envs generalizing s with
  | nil => rfl
  | cons e rest ih =>
    simp only [runTrace]
    rw [ih _ (fun e' he' => h e' (List.mem_cons_of_mem e he'))]
    exact (compute_skip_of_no_open c e s (h e (List.mem_cons_self e rest))).1

/-- In the non-degenerate branch the coefficient fields of the reduced
row are the divisions of lines 136-141. -/
lemma reduce_pos_fields (c : AeroConstants) (aoa : ℝ) (F M : Vec3)
    (h : 0.5 * c.rho * c.uinf * c.uinf * c.aref ≠ 0) :
    (reduce c aoa F M).cd =
        (reduce c aoa F M).fd / (0.5 * c.rho * c.uinf * c.uinf * c.aref)
      ∧ (reduce c aoa F M).cl =
        (reduce c aoa F M).fl / (0.5 * c.rho * c.uinf * c.uinf * c.aref)
      ∧ (reduce c aoa F M).cmx =
        M.x / (0.5 * c.rho * c.uinf * c.uinf * c.aref * c.lref)
      ∧ (reduce c aoa F M).cmy =
        M.y / (0.5 * c.rho * c.uinf * c.uinf * c.aref * c.lref)
      ∧ (reduce c aoa F M).cmz =
        M.z / (0.5 * c.rho * c.uinf * c.uinf * c.aref * c.lref) := by
  simp only [reduce]
  rw [if_pos h]
  exact ⟨rfl, rfl, rfl, rfl, rfl⟩

/-- In the degenerate branch (lines 143-147) every coefficient field is 0. -/
lemma reduce_neg_fields (c : AeroConstants) (aoa : ℝ) (F M : Vec3)
    (h : 0.5 * c.rho * c.uinf * c.uinf * c.aref = 0) :
    (reduce c aoa F M).cd = 0 ∧ (reduce c aoa F M).cl = 0
      ∧ (reduce c aoa F M).cmx = 0 ∧ (reduce c aoa F M).cmy = 0
      ∧ (reduce c aoa F M).cmz = 0 := by
  simp only [reduce]
  rw [if_neg (fun hn => hn h)]
  exact ⟨rfl, rfl, rfl, rfl, rfl⟩

/-! ### Claims -/

/-- C1: for every AoA value and every force vector, the reduction
pipeline computes `a = aoa_deg * π / 180` and produces drag
`Fd = Fx*cos a + Fy*sin a` and lift `Fl = -Fx*sin a + Fy*cos a`: whenever
the zone lookup succeeds, the row the pipeline produces (echoed on the
console and written to the ledger) has exactly these drag and lift
components, where `aoa_deg` is the value read from the AoA store. -/
theorem c1_drag_lift_decomposition (c : AeroConstants) (env : Env)
    (s : UdfState) (hz : env.zoneFound = true) :
    ∃ row : ResultRow,
      (compute_forces_and_write c env s).consoleRow = some row
      ∧ row.fd =
          env.force.x *
            Real.cos ((read_aoa_from_file env.aoaFile s.aoa_deg).1 * Real.pi / 180)
          + env.force.y *
            Real.sin ((read_aoa_from_file env.aoaFile s.aoa_deg).1 * Real.pi / 180)
      ∧ row.fl =
          -env.force.x *
            Real.sin ((read_aoa_from_file env.aoaFile s.aoa_deg).1 * Real.pi / 180)
          + env.force.y *
            Real.cos ((read_aoa_from_file env.aoaFile s.aoa_deg).1 * Real.pi / 180) := by
  exact ⟨reduce c (aoaAfterRead env s) env.force env.moment,
    compute_consoleRow c env s hz,
    reduce_fd c (aoaAfterRead env s) env.force env.moment,
    reduce_fl c (aoaAfterRead env s) env.force env.moment⟩

/-- Witness for C1 at the concrete successful environment `envGood`. -/
theorem c1_witness :
    envGood.zoneFound = true
    ∧ ∃ row : ResultRow,
      (compute_forces_and_write defaultConstants envGood initUdfState).consoleRow
        = some row
      ∧ row.fd =
          envGood.force.x *
            Real.cos ((read_aoa_from_file envGood.aoaFile initUdfState.aoa_deg).1
              * Real.pi / 180)
          + envGood.force.y *
            Real.sin ((read_aoa_from_file envGood.aoaFile initUdfState.aoa_deg).1
              * Real.pi / 180)
      ∧ row.fl =
          -envGood.force.x *
            Real.sin ((read_aoa_from_file envGood.aoaFile initUdfState.aoa_deg).1
              * Real.pi / 180)
          + envGood.force.y *
            Real.cos ((read_aoa_from_file envGood.aoaFile initUdfState.aoa_deg).1
              * Real.pi / 180) :=
  ⟨rfl, c1_drag_lift_decomposition defaultConstants envGood initUdfState rfl⟩

/-- C2: with a non-zero denominator the pipeline computes the dynamic
pressure `q = 0.5 * ρ * U∞²` from the configured density and freestream
speed, and produces `Cd = Fd/(q*Aref)`, `Cl = Fl/(q*Aref)`,
`Cmx = Mx/(q*Aref*Lref)`, `Cmy = My/(q*Aref*Lref)`,
`Cmz = Mz/(q*Aref*Lref)`. -/
theorem c2_coefficients (c : AeroConstants) (aoa : ℝ) (F M : Vec3)
    (h : 0.5 * c.rho * c.uinf ^ 2 * c.aref ≠ 0) :
    (reduce c aoa F M).cd =
        (reduce c aoa F M).fd / (0.5 * c.rho * c.uinf ^ 2 * c.aref)
      ∧ (reduce c aoa F M).cl =
        (reduce c aoa F M).fl / (0.5 * c.rho * c.uinf ^ 2 * c.aref)
      ∧ (reduce c aoa F M).cmx =
        M.x / (0.5 * c.rho * c.uinf ^ 2 * c.aref * c.lref)
      ∧ (reduce c aoa F M).cmy =
        M.y / (0.5 * c.rho * c.uinf ^ 2 * c.aref * c.lref)
      ∧ (reduce c aoa F M).cmz =
        M.z / (0.5 * c.rho * c.uinf ^ 2 * c.aref * c.lref) := by
  have h' : 0.5 * c.rho * c.uinf * c.uinf * c.aref ≠ 0 := by
    intro h0
    exact h (by rw [← h0]; ring)
  obtain ⟨hcd, hcl, hmx, hmy, hmz⟩ := reduce_pos_fields c aoa F M h'
  refine ⟨?_, ?_, ?_, ?_, ?_⟩
  · rw [hcd]; ring_nf
  · rw [hcl]; ring_nf
  · rw [hmx]; ring_nf
  · rw [hmy]; ring_nf
  · rw [hmz]; ring_nf

/-- Witness for C2 at the source's configured constants
(`ρ=1.225`, `U∞=16`, `Aref=0.4`, so `q*Aref = 62.72 ≠ 0`). -/
theorem c2_witness :
    0.5 * defaultConstants.rho * defaultConstants.uinf ^ 2
        * defaultConstants.aref ≠ 0
    ∧ ((reduce defaultConstants 5 ⟨2, 3, 4⟩ ⟨1, 2, 3⟩).cd =
        (reduce defaultConstants 5 ⟨2, 3, 4⟩ ⟨1, 2, 3⟩).fd /
          (0.5 * defaultConstants.rho * defaultConstants.uinf ^ 2
            * defaultConstants.aref)
      ∧ (reduce defaultConstants 5 ⟨2, 3, 4⟩ ⟨1, 2, 3⟩).cl =
        (reduce defaultConstants 5 ⟨2, 3, 4⟩ ⟨1, 2, 3⟩).fl /
          (0.5 * defaultConstants.rho * defaultConstants.uinf ^ 2
            * defaultConstants.aref)
      ∧ (reduce defaultConstants 5 ⟨2, 3, 4⟩ ⟨1, 2, 3⟩).cmx =
        (1 : ℝ) / (0.5 * defaultConstants.rho * defaultConstants.uinf ^ 2
            * defaultConstants.aref * defaultConstants.lref)
      ∧ (reduce defaultConstants 5 ⟨2, 3, 4⟩ ⟨1, 2, 3⟩).cmy =
        (2 : ℝ) / (0.5 * defaultConstants.rho * defaultConstants.uinf ^ 2
            * defaultConstants.aref * defaultConstants.lref)
      ∧ (reduce defaultConstants 5 ⟨2, 3, 4⟩ ⟨1, 2, 3⟩).cmz =
        (3 : ℝ) / (0.5 * defaultConstants.rho * defaultConstants.uinf ^ 2
            * defaultConstants.aref * defaultConstants.lref)) := by
  refine ⟨?_, c2_coefficients defaultConstants 5 ⟨2, 3, 4⟩ ⟨1, 2, 3⟩ ?_⟩
    <;> norm_num [defaultConstants]

/-- C3: when `q*Aref = 0` exactly (for example `Aref = 0`) the pipeline
sets all the coefficients `Cd, Cl, Cmx, Cmy, Cmz` to 0 instead of
dividing, and the result row is still produced and appended. -/
theorem c3_degenerate_denominator (c : AeroConstants) (env : Env)
    (s : UdfState)
    (hq : 0.5 * c.rho * c.uinf ^ 2 * c.aref = 0)
    (hz : env.zoneFound = true) (ho : env.ledgerOpen = true) :
    ∃ row : ResultRow,
      (compute_forces_and_write c env s).written.getLast?
        = some (Line.row row)
      ∧ row.cd = 0 ∧ row.cl = 0 ∧ row.cmx = 0 ∧ row.cmy = 0 ∧ row.cmz = 0 := by
  have hq' : 0.5 * c.rho * c.uinf * c.uinf * c.aref = 0 := by
    rw [← hq]; ring
  obtain ⟨hcd, hcl, hmx, hmy, hmz⟩ :=
    reduce_neg_fields c (aoaAfterRead env s) env.force env.moment hq'
  refine ⟨reduce c (aoaAfterRead env s) env.force env.moment, ?_,
    hcd, hcl, hmx, hmy, hmz⟩
  by_cases hf : s.header_written = true
  · rw [compute_good_later c env s hz ho hf]
    rfl
  · rw [compute_good_first c env s hz ho (by simpa using hf)]
    rfl

/-- Witness for C3: zero reference area at a successful invocation. -/
theorem c3_witness :
    0.5 * constAref0.rho * constAref0.uinf ^ 2 * constAref0.aref = 0
    ∧ envGood.zoneFound = true ∧ envGood.ledgerOpen = true
    ∧ ∃ row : ResultRow,
      (compute_forces_and_write constAref0 envGood initUdfState).written.getLast?
        = some (Line.row row)
      ∧ row.cd = 0 ∧ row.cl = 0 ∧ row.cmx = 0 ∧ row.cmy = 0 ∧ row.cmz = 0 := by
  refine ⟨?_, rfl, rfl,
    c3_degenerate_denominator constAref0 envGood initUdfState ?_ rfl rfl⟩
    <;> norm_num [constAref0]

/-- C9: the wind-axis decomposition is a magnitude-preserving rotation:
for every AoA and force vector, `Fd² + Fl² = Fx² + Fy²` exactly over the
reals. -/
theorem c9_rotation_preserves_magnitude (c : AeroConstants) (aoa : ℝ)
    (F M : Vec3) :
    (reduce c aoa F M).fd ^ 2 + (reduce c aoa F M).fl ^ 2
      = F.x ^ 2 + F.y ^ 2 := by
  rw [reduce_fd, reduce_fl]
  have h := Real.sin_sq_add_cos_sq (aoa * Real.pi / 180)
  linear_combination (F.x ^ 2 + F.y ^ 2) * h

/-- A fresh process running a non-empty all-successful trace appends
exactly one header line, and that header is the very first line appended. -/
lemma runTrace_fresh_headers (c : AeroConstants) (envs : List Env)
    (hne : envs ≠ [])
    (hgood : ∀ e ∈ envs, e.zoneFound = true ∧ e.ledgerOpen = true) :
    countHeader (runTrace c envs initUdfState).2 = 1
    ∧ (runTrace c envs initUdfState).2.head? = some Line.header := by
  cases envs with
  | nil => exact absurd rfl hne
  | cons e rest =>
    obtain ⟨hz, ho⟩ := hgood e (List.mem_cons_self e rest)
    have hfirst := compute_good_first c e initUdfState hz ho rfl
    have hrest :
        countHeader (runTrace c rest
          (compute_forces_and_write c e initUdfState).state).2 = 0 := by
      apply runTrace_no_header_of_flag
      rw [hfirst]
    constructor
    · simp only [runTrace, countHeader, List.countP_append] at *
      rw [hfirst] at hrest ⊢
      simpa [isHeader] using hrest
    · simp only [runTrace]
      rw [hfirst]
      rfl

/-- C4: exactly one header line per process lifetime — from a fresh
process, a non-empty sequence of successful invocations appends exactly
one header, the first invocation emits it immediately before its data
row, and the invocation result is independent of the destination file's
pre-existing content (the guard is the in-memory static
`header_written`, not an inspection of the file). -/
theorem c4_header_once_per_process (c : AeroConstants) (envs : List Env)
    (hne : envs ≠ [])
    (hgood : ∀ e ∈ envs, e.zoneFound = true ∧ e.ledgerOpen = true) :
    countHeader (runTrace c envs initUdfState).2 = 1
    ∧ (∃ e rest row, envs = e :: rest
        ∧ (compute_forces_and_write c e initUdfState).written
            = [Line.header, Line.row row])
    ∧ (∀ (e : Env) (s : UdfState) (content : List Line),
        compute_forces_and_write c { e with ledgerContent := content } s
          = compute_forces_and_write c e s) := by
  refine ⟨(runTrace_fresh_headers c envs hne hgood).1, ?_,
    fun e s content => compute_content_blind c e s content⟩
  cases envs with
  | nil => exact absurd rfl hne
  | cons e rest =>
    obtain ⟨hz, ho⟩ := hgood e (List.mem_cons_self e rest)
    exact ⟨e, rest,
      reduce c (aoaAfterRead e initUdfState) e.force e.moment, rfl,
      by rw [compute_good_first c e initUdfState hz ho rfl]⟩

/-- Witness for C4: a one-invocation process over `envGood`. -/
theorem c4_witness :
    ([envGood] ≠ ([] : List Env))
    ∧ (∀ e ∈ [envGood], e.zoneFound = true ∧ e.ledgerOpen = true)
    ∧ (countHeader (runTrace defaultConstants [envGood] initUdfState).2 = 1
      ∧ (∃ e rest row, [envGood] = e :: rest
          ∧ (compute_forces_and_write defaultConstants e initUdfState).written
              = [Line.header, Line.row row])
      ∧ (∀ (e : Env) (s : UdfState) (content : List Line),
          compute_forces_and_write defaultConstants
              { e with ledgerContent := content } s
            = compute_forces_and_write defaultConstants e s)) := by
  have h1 : [envGood] ≠ ([] : List Env) := by simp
  have h2 : ∀ e ∈ [envGood], e.zoneFound = true ∧ e.ledgerOpen = true := by
    intro e he
    rw [List.mem_singleton] at he
    subst he
    exact ⟨rfl, rfl⟩
  exact ⟨h1, h2, c4_header_once_per_process defaultConstants [envGood] h1 h2⟩

/-- Counterexample to C5: restart the process (`initUdfState`) against a
ledger that already holds a header and a data row; the invocation appends
a second header, so the file does not contain exactly one header row and
the header is re-written on a process restart over a non-empty file. -/
theorem c5_counterexample :
    countHeader (ledgerAfter defaultConstants envRestart initUdfState) = 2 := by
  have h := compute_good_first defaultConstants envRestart initUdfState rfl rfl rfl
  simp only [ledgerAfter, countHeader, List.countP_append]
  rw [h]
  simp [envRestart, envGood, isHeader]

/-- C5 as amended: the header guard is per process, not per file — a
fresh process appends exactly one header (before its first data row)
regardless of the destination's pre-existing content, so the header
count of the file grows by one per (successful) process, and the header
is the file's first line only when the file was empty at process start. -/
theorem c5_amended_header_per_process_restart (c : AeroConstants)
    (prior : List Line) (envs : List Env) (hne : envs ≠ [])
    (hgood : ∀ e ∈ envs, e.zoneFound = true ∧ e.ledgerOpen = true) :
    countHeader (prior ++ (runTrace c envs initUdfState).2)
      = countHeader prior + 1
    ∧ (prior = [] →
        (prior ++ (runTrace c envs initUdfState).2).head? = some Line.header) := by
  obtain ⟨hcount, hhead⟩ := runTrace_fresh_headers c envs hne hgood
  constructor
  · simp only [countHeader, List.countP_append] at *
    rw [hcount]
  · intro hp
    subst hp
    simpa using hhead

/-- Witness for C5's amended claim: one restart invocation over the
non-empty ledger of `envRestart`. -/
theorem c5_amended_witness :
    ([envRestart] ≠ ([] : List Env))
    ∧ (∀ e ∈ [envRestart], e.zoneFound = true ∧ e.ledgerOpen = true)
    ∧ (countHeader ([Line.header, Line.row rowPrev]
          ++ (runTrace defaultConstants [envRestart] initUdfState).2)
        = countHeader [Line.header, Line.row rowPrev] + 1
      ∧ ([Line.header, Line.row rowPrev] = ([] : List Line) →
          ([Line.header, Line.row rowPrev]
            ++ (runTrace defaultConstants [envRestart] initUdfState).2).head?
            = some Line.header)) := by
  have h1 : [envRestart] ≠ ([] : List Env) := by simp
  have h2 : ∀ e ∈ [envRestart], e.zoneFound = true ∧ e.ledgerOpen = true := by
    intro e he
    rw [List.mem_singleton] at he
    subst he
    exact ⟨rfl, rfl⟩
  exact ⟨h1, h2,
    c5_amended_header_per_process_restart defaultConstants
      [Line.header, Line.row rowPrev] [envRestart] h1 h2⟩

/-- C6: the AoA read silently falls back — a missing file or unparsable
content returns the caller's cached value unchanged (`0.0` on a
first-ever call, since the static initialises to 0), a numeric first
token replaces the cached value, and no branch emits any message. -/
theorem c6_read_aoa_fallback :
    (∀ prior : ℝ, (read_aoa_from_file none prior).1 = prior)
    ∧ (∀ prior : ℝ, (read_aoa_from_file (some none) prior).1 = prior)
    ∧ (∀ v prior : ℝ, (read_aoa_from_file (some (some v)) prior).1 = v)
    ∧ (read_aoa_from_file none initUdfState.aoa_deg).1 = 0
    ∧ (read_aoa_from_file (some none) initUdfState.aoa_deg).1 = 0
    ∧ (∀ (f : Option (Option ℝ)) (prior : ℝ),
        (read_aoa_from_file f prior).2 = false) :=
  ⟨fun _ => rfl, fun _ => rfl, fun _ _ => rfl, rfl, rfl,
    fun f _ => by rcases f with _ | (_ | _) <;> rfl⟩

/-- Counterexample to C7: on a failed zone lookup the invocation does
print the error message and writes no row, but the signal handed back to
the driver is `0` (the on-demand callback is `void`), not the non-zero
signal the claim requires. -/
theorem c7_counterexample :
    (compute_forces_and_write defaultConstants envNoZone initUdfState).errorMsg
        = true
    ∧ (compute_forces_and_write defaultConstants envNoZone initUdfState).written
        = []
    ∧ (compute_forces_and_write defaultConstants envNoZone initUdfState).signal
        = 0 := by
  rw [compute_zone_miss defaultConstants envNoZone initUdfState rfl]
  exact ⟨rfl, rfl, rfl⟩

/-- C7 as amended: when the surface zone is not found the invocation
aborts before computing forces (no console row), prints the error
message, writes nothing to the ledger, leaves the header flag unchanged,
and returns normally — with status `0`, not a non-zero signal. -/
theorem c7_amended_zone_not_found (c : AeroConstants) (env : Env)
    (s : UdfState) (hz : env.zoneFound = false) :
    (compute_forces_and_write c env s).errorMsg = true
    ∧ (compute_forces_and_write c env s).written = []
    ∧ (compute_forces_and_write c env s).consoleRow = none
    ∧ (compute_forces_and_write c env s).signal = 0
    ∧ (compute_forces_and_write c env s).state.header_written
        = s.header_written := by
  rw [compute_zone_miss c env s hz]
  exact ⟨rfl, rfl, rfl, rfl, rfl⟩

/-- Witness for C7's amended claim at `envNoZone`. -/
theorem c7_amended_witness :
    envNoZone.zoneFound = false
    ∧ ((compute_forces_and_write defaultConstants envNoZone initUdfState).errorMsg
          = true
      ∧ (compute_forces_and_write defaultConstants envNoZone initUdfState).written
          = []
      ∧ (compute_forces_and_write defaultConstants envNoZone initUdfState).consoleRow
          = none
      ∧ (compute_forces_and_write defaultConstants envNoZone initUdfState).signal
          = 0
      ∧ (compute_forces_and_write defaultConstants
            envNoZone initUdfState).state.header_written
          = initUdfState.header_written) :=
  ⟨rfl, c7_amended_zone_not_found defaultConstants envNoZone initUdfState rfl⟩

/-- Counterexample to C8: when the ledger fails to open, the invocation
emits no error message, returns status `0`, and appends nothing — the
failure is not surfaced and the ledger row is silently dropped. -/
theorem c8_counterexample :
    (compute_forces_and_write defaultConstants envNoOpen initUdfState).written
        = []
    ∧ (compute_forces_and_write defaultConstants envNoOpen initUdfState).errorMsg
        = false
    ∧ (compute_forces_and_write defaultConstants envNoOpen initUdfState).signal
        = 0 := by
  rw [compute_open_fail defaultConstants envNoOpen initUdfState rfl rfl]
  exact ⟨rfl, rfl, rfl⟩

/-- C8 as amended: a ledger open failure is silently tolerated — no
error message, status `0`, nothing appended, the header flag unchanged —
and the computed row remains observable only in the console message. -/
theorem c8_amended_open_failure (c : AeroConstants) (env : Env)
    (s : UdfState) (hz : env.zoneFound = true) (ho : env.ledgerOpen = false) :
    (compute_forces_and_write c env s).written = []
    ∧ (compute_forces_and_write c env s).errorMsg = false
    ∧ (compute_forces_and_write c env s).signal = 0
    ∧ (compute_forces_and_write c env s).state.header_written
        = s.header_written
    ∧ (compute_forces_and_write c env s).consoleRow
        = some (reduce c (aoaAfterRead env s) env.force env.moment) := by
  rw [compute_open_fail c env s hz ho]
  exact ⟨rfl, rfl, rfl, rfl, rfl⟩

/-- Witness for C8's amended claim at `envNoOpen`. -/
theorem c8_amended_witness :
    envNoOpen.zoneFound = true ∧ envNoOpen.ledgerOpen = false
    ∧ ((compute_forces_and_write defaultConstants envNoOpen initUdfState).written
          = []
      ∧ (compute_forces_and_write defaultConstants envNoOpen initUdfState).errorMsg
          = false
      ∧ (compute_forces_and_write defaultConstants envNoOpen initUdfState).signal
          = 0
      ∧ (compute_forces_and_write defaultConstants
            envNoOpen initUdfState).state.header_written
          = initUdfState.header_written
      ∧ (compute_forces_and_write defaultConstants envNoOpen initUdfState).consoleRow
          = some (reduce defaultConstants
              (aoaAfterRead envNoOpen initUdfState)
              envNoOpen.force envNoOpen.moment)) :=
  ⟨rfl, rfl,
    c8_amended_open_failure defaultConstants envNoOpen initUdfState rfl rfl⟩

/-- C10: the header flag is set only by an invocation that actually
opened the ledger and wrote the header — after any number of invocations
none of which opened the ledger, the flag is still unset, so the first
invocation whose open succeeds writes the header immediately before its
data row; a failed append leaves the header-emission state unchanged. -/
theorem c10_flag_set_only_on_successful_write (c : AeroConstants)
    (envs : List Env) (hfail : ∀ e ∈ envs, e.ledgerOpen = false)
    (e' : Env) (hz : e'.zoneFound = true) (ho : e'.ledgerOpen = true) :
    (runTrace c envs initUdfState).1.header_written = false
    ∧ (∃ row,
        (compute_forces_and_write c e' (runTrace c envs initUdfState).1).written
          = [Line.header, Line.row row])
    ∧ (∀ (e : Env) (s0 : UdfState), e.ledgerOpen = false →
        (compute_forces_and_write c e s0).state.header_written
            = s0.header_written
          ∧ (compute_forces_and_write c e s0).written = []) := by
  have hflag : (runTrace c envs initUdfState).1.header_written = false :=
    runTrace_flag_of_no_open c envs initUdfState hfail
  refine ⟨hflag,
    ⟨reduce c (aoaAfterRead e' (runTrace c envs initUdfState).1)
        e'.force e'.moment, ?_⟩,
    fun e s0 ho' => compute_skip_of_no_open c e s0 ho'⟩
  rw [compute_good_first c e' (runTrace c envs initUdfState).1 hz ho hflag]

/-- Witness for C10: one failed-open invocation, then `envGood`. -/
theorem c10_witness :
    (∀ e ∈ [envNoOpen], e.ledgerOpen = false)
    ∧ envGood.zoneFound = true ∧ envGood.ledgerOpen = true
    ∧ ((runTrace defaultConstants [envNoOpen] initUdfState).1.header_written
          = false
      ∧ (∃ row,
          (compute_forces_and_write defaultConstants envGood
              (runTrace defaultConstants [envNoOpen] initUdfState).1).written
            = [Line.header, Line.row row])
      ∧ (∀ (e : Env) (s0 : UdfState), e.ledgerOpen = false →
          (compute_forces_and_write defaultConstants e s0).state.header_written
              = s0.header_written
            ∧ (compute_forces_and_write defaultConstants e s0).written = [])) := by
  have h1 : ∀ e ∈ [envNoOpen], e.ledgerOpen = false := by
    intro e he
    rw [List.mem_singleton] at he
    subst he
    rfl
  exact ⟨h1, rfl, rfl,
    c10_flag_set_only_on_successful_write defaultConstants [envNoOpen] h1
      envGood rfl rfl⟩

end AoaUdf
